import Mathlib

/-!
Verification of the CRM integration adapter layer of the `crm_crud_app`
repository: a shallow embedding of the RetailCRM adapter
(`src/services/integrations/retail_crm/api_service.py`), the shared request
pipeline (`src/services/integrations/base_crm.py`) and the pydantic DTO rules
(`src/schemas/*.py`), together with theorems settling the specification's
claims about filter flattening, response validation/normalization, error
classification and the payment-creation read-before-write check.
-/

/-- A Python/JSON-like value: `null` is Python `None`; dictionaries are
insertion-ordered association lists, as Python dicts are. -/
inductive Value where
  | null : Value
  | bool : Bool → Value
  | int : Int → Value
  | str : String → Value
  | list : List Value → Value
  | dict : List (String × Value) → Value

/-- The `v is None` as a Boolean test. -/
def Value.isNull : Value → Bool
  | Value.null => true
  | _ => false

/-- A Python dictionary with string keys (insertion-ordered). -/
abbrev PyDict := List (String × Value)

/-- Python truthiness (`bool(v)`): `None`, `False`, `0`, `""` and empty
containers are falsy, everything else is truthy. -/
def Value.truthy : Value → Bool
  | Value.null => false
  | Value.bool b => b
  | Value.int n => n != 0
  | Value.str s => !s.isEmpty
  | Value.list xs => !xs.isEmpty
  | Value.dict xs => !xs.isEmpty

/-- First value bound to key `k`, like Python dict indexing (keys of a real
Python dict are unique, so the first binding is the binding). -/
def dictLookup : PyDict → String → Option Value
  | [], _ => none
  | (k0, v0) :: rest, k => if k0 = k then some v0 else dictLookup rest k

/-- Python `d.get(k, default)`. -/
def dictGetD (d : PyDict) (k : String) (default : Value) : Value :=
  (dictLookup d k).getD default

/-- Python `d[k] = v`: overwrite in place (keeping the key's position) when
the key is present, append otherwise. -/
def dictSet : PyDict → String → Value → PyDict
  | [], k, v => [(k, v)]
  | (k0, v0) :: rest, k, v =>
    if k0 = k then (k, v) :: rest else (k0, v0) :: dictSet rest k v

/-- The keys of a dictionary, in order. -/
def dictKeys (d : PyDict) : List String :=
  d.map (fun kv => kv.1)

mutual

/-- The inner `flatten` of
`RetailCRMService._convert_filter_data_to_retail_crm_style`: a mapping
recurses per entry with a bracketed key suffix, a list recurses per element
with a `[]` suffix, and a scalar is assigned into the accumulated `params`
dictionary (`params[prefix] = value`, so a repeated full key overwrites). -/
def flatten (params : PyDict) (pfx : String) : Value → PyDict
  | Value.dict kvs => flattenPairs params pfx kvs
  | Value.list items => flattenItems params pfx items
  | v => dictSet params pfx v

/-- The `flatten` iterated over the entries of a mapping value. -/
def flattenPairs (params : PyDict) (pfx : String) : List (String × Value) → PyDict
  | [] => params
  | (k, v) :: rest => flattenPairs (flatten params (pfx ++ "[" ++ k ++ "]") v) pfx rest

/-- The `flatten` iterated over the elements of a list value. -/
def flattenItems (params : PyDict) (pfx : String) : List Value → PyDict
  | [] => params
  | item :: rest => flattenItems (flatten params (pfx ++ "[]") item) pfx rest

end

/-- The final loop of `_convert_filter_data_to_retail_crm_style`: flatten each
remaining filter entry under the `filter[k]` namespace. -/
def flattenFilterDict (params : PyDict) : PyDict → PyDict
  | [] => params
  | (k, v) :: rest => flattenFilterDict (flatten params ("filter[" ++ k ++ "]") v) rest

/-- The body of the first loop of
`_convert_filter_data_to_retail_crm_style`, with the accumulated
`(params, filter_dict)` pair explicit. -/
def splitLimitPageAux (acc : PyDict × PyDict) : PyDict → PyDict × PyDict
  | [] => acc
  | (k, v) :: rest =>
    if k = "limit" ∨ k = "page" then splitLimitPageAux (dictSet acc.1 k v, acc.2) rest
    else splitLimitPageAux (acc.1, dictSet acc.2 k v) rest

/-- The first loop of `_convert_filter_data_to_retail_crm_style`: route
`limit`/`page` into the top-level params and everything else into
`filter_dict`. -/
def splitLimitPage (filters : PyDict) : PyDict × PyDict :=
  splitLimitPageAux ([], []) filters

/-- The `RetailCRMService._convert_filter_data_to_retail_crm_style` applied to an
already-plain dictionary (the `isinstance(filter_dto, dict)` branch; the
pydantic branch produces exactly such a dictionary via
`model_dump(exclude_none=True, by_alias=True)`): drop `None`-valued entries,
route `limit`/`page` to the top level, and flatten the rest under
`filter[...]`. -/
def convert_filter_data_to_retail_crm_style (filter_dto : PyDict) : PyDict :=
  let filters := filter_dto.filter (fun kv => !kv.2.isNull)
  let split := splitLimitPage filters
  flattenFilterDict split.1 split.2

mutual

/-- Python `repr(v)` (the rendering used inside containers); string escaping
inside `repr` is not modelled beyond quoting, which no claim exercises. -/
def pyRepr : Value → String
  | Value.null => "None"
  | Value.bool b => if b then "True" else "False"
  | Value.int n => toString n
  | Value.str s => "\x27" ++ s ++ "\x27"
  | Value.list xs => "[" ++ pyReprItems xs ++ "]"
  | Value.dict kvs => "\x7b" ++ pyReprPairs kvs ++ "\x7d"

/-- Comma-separated `repr` of list elements. -/
def pyReprItems : List Value → String
  | [] => ""
  | [x] => pyRepr x
  | x :: rest => pyRepr x ++ ", " ++ pyReprItems rest

/-- Comma-separated `repr` of dictionary entries. -/
def pyReprPairs : List (String × Value) → String
  | [] => ""
  | [(k, v)] => "\x27" ++ k ++ "\x27: " ++ pyRepr v
  | (k, v) :: rest => "\x27" ++ k ++ "\x27: " ++ pyRepr v ++ ", " ++ pyReprPairs rest

end

/-- Python `str(v)` as used by f-string interpolation: a string stays itself,
everything else renders via `repr`-style conventions (`None`, `True`, digits). -/
def pyStr : Value → String
  | Value.str s => s
  | v => pyRepr v

/-- JSON string escaping (backslash and double quote; control-character
escapes are not modelled, no claim exercises them). -/
def jsonEscape (s : String) : String :=
  (s.replace "\\" "\\\\").replace "\"" "\\\""

mutual

/-- Python `json.dumps(v)` with its default separators. -/
def jsonDumps : Value → String
  | Value.null => "null"
  | Value.bool b => if b then "true" else "false"
  | Value.int n => toString n
  | Value.str s => "\"" ++ jsonEscape s ++ "\""
  | Value.list xs => "[" ++ jsonDumpsItems xs ++ "]"
  | Value.dict kvs => "\x7b" ++ jsonDumpsPairs kvs ++ "\x7d"

/-- Comma-separated JSON rendering of list elements. -/
def jsonDumpsItems : List Value → String
  | [] => ""
  | [x] => jsonDumps x
  | x :: rest => jsonDumps x ++ ", " ++ jsonDumpsItems rest

/-- Comma-separated JSON rendering of dictionary entries. -/
def jsonDumpsPairs : List (String × Value) → String
  | [] => ""
  | [(k, v)] => "\"" ++ jsonEscape k ++ "\": " ++ jsonDumps v
  | (k, v) :: rest => "\"" ++ jsonEscape k ++ "\": " ++ jsonDumps v ++ ", " ++ jsonDumpsPairs rest

end

/-- Modelled from the spec: the module `constants_base` (imported for
`HTTPMethod`) is not under src/; per the spec, read operations use HTTP GET
and write operations use HTTP POST. -/
def HTTPMethod.GET : String := "GET"

/-- Modelled from the spec: see `HTTPMethod.GET`. -/
def HTTPMethod.POST : String := "POST"

/-- The outcome of one outbound HTTP call: status code, raw body text, and
the body parsed as JSON (`Except.error` models a `response.json()` failure;
the code annotates the parsed body as a dict). -/
structure HttpResponse where
  status : Nat
  text : String
  json : Except String PyDict

/-- One outbound HTTP request as handed to the HTTP client by
`BaseCRMService._make_request` (`endpoint` is kept alongside the full `url`
for stating which endpoints an operation hits). -/
structure HttpRequest where
  method : String
  endpoint : String
  url : String
  params : PyDict
  data : Option PyDict
  headers : PyDict

/-- The `RetailCRMService` adapter state: the API key and the composed base
URL (`URL + PREFIX`), both externally configured. -/
structure RetailCRMService where
  api_key : String
  api_url : String

/-- The `RetailCRMService._prepare_request_params`: copy the caller's params (or
start empty) and assign the API key under `apiKey`. -/
def prepare_request_params (svc : RetailCRMService) (params : Option PyDict) : PyDict :=
  let request_params :=
    match params with
    | some p => if p.isEmpty then [] else p
    | none => []
  dictSet request_params "apiKey" (Value.str svc.api_key)

/-- The `RetailCRMService._prepare_request_body`: the identity. -/
def prepare_request_body (json_data : Option PyDict) : Option PyDict :=
  json_data

/-- The `RetailCRMService._prepare_request_headers`: POST requests get the
form-urlencoded content type (`_make_request` calls this without a method
argument, so the POST default applies to every request). -/
def prepare_request_headers (headers : Option PyDict) (method : String) : PyDict :=
  let hs :=
    match headers with
    | none => []
    | some h => h
  if method = HTTPMethod.POST then
    dictSet hs "Content-Type" (Value.str "application/x-www-form-urlencoded")
  else hs

/-- The `RetailCRMService._validate_response`: fail unless the payload's
`success` field (defaulting to `False` when absent) is truthy; the failure
message carries `errorMsg`, defaulting to "Unknown error". -/
def validate_response (response : PyDict) : Except String Unit :=
  if !(dictGetD response "success" (Value.bool false)).truthy then
    Except.error ("RetailCRM API error: " ++
      pyStr (dictGetD response "errorMsg" (Value.str "Unknown error")))
  else
    Except.ok ()

/-- The request `_make_request` hands to the HTTP client: the three
preparation steps (params with API key, body passthrough, headers with the
POST default applying to every call) and the base-URL/endpoint
concatenation. -/
def builtRequest (svc : RetailCRMService) (method : String) (endpoint : String)
    (params : Option PyDict) (json_data : Option PyDict) (headers : Option PyDict) :
    HttpRequest :=
  let request_params := prepare_request_params svc params
  let request_body := prepare_request_body json_data
  let hdrs := prepare_request_headers headers HTTPMethod.POST
  let url := svc.api_url ++ endpoint
  ⟨method, endpoint, url, request_params, request_body, hdrs⟩

/-- The `BaseCRMService._make_request` with the RetailCRM preparation steps: one
HTTP call, transport classification of a non-2xx status
(`response.raise_for_status()` escaping as `CRM API error: HTTP ...`), JSON
parsing, then semantic validation; an exception escaping the JSON/validation
steps is re-raised as `Request error: ...`.  The second component is the
list of HTTP requests actually issued — always exactly one per call. -/
def make_request (svc : RetailCRMService) (http : HttpRequest → HttpResponse)
    (method : String) (endpoint : String) (params : Option PyDict)
    (json_data : Option PyDict) (headers : Option PyDict) :
    Except String PyDict × List HttpRequest :=
  let req := builtRequest svc method endpoint params json_data headers
  let response := http req
  let result : Except String PyDict :=
    if response.status < 200 ∨ 300 ≤ response.status then
      Except.error ("CRM API error: HTTP " ++ toString response.status ++ ": " ++ response.text)
    else
      match response.json with
      | Except.error e => Except.error ("Request error: " ++ e)
      | Except.ok parsed =>
        match validate_response parsed with
        | Except.error e => Except.error ("Request error: " ++ e)
        | Except.ok _ => Except.ok parsed
  (result, [req])

/-- The projection inside `CustomerGetSchema.parse_phones`:
`[item.get("number") for item in v if item.get("number")]`, which drops
entries whose `number` is absent or falsy and raises (`Except.error`) when an
element is not a mapping. -/
def phonesProject : List Value → Except String (List Value)
  | [] => Except.ok []
  | Value.dict d :: rest =>
    (phonesProject rest).map (fun tail =>
      let n := dictGetD d "number" Value.null
      if n.truthy then n :: tail else tail)
  | _ :: _ => Except.error "AttributeError: object has no attribute get"

/-- The `CustomerGetSchema.parse_phones` (a `mode="before"` validator): `None`
stays `None`, an empty list stays empty, a dict-headed list is projected to
the `number` fields, a string-headed list and every other shape pass through
unchanged. -/
def parse_phones : Value → Except String Value
  | Value.null => Except.ok Value.null
  | Value.list [] => Except.ok (Value.list [])
  | Value.list (x :: xs) =>
    match x with
    | Value.dict _ => (phonesProject (x :: xs)).map Value.list
    | Value.str _ => Except.ok (Value.list (x :: xs))
    | _ => Except.ok (Value.list (x :: xs))
  | v => Except.ok v

/-- Pydantic validation of an `int` field (lax mode: integers and integral
strings are accepted; booleans and other shapes are rejected). -/
def validateInt : Value → Except String Int
  | Value.int n => Except.ok n
  | Value.str s =>
    match s.toInt? with
    | some n => Except.ok n
    | none => Except.error "validation error: value is not a valid integer"
  | _ => Except.error "validation error: value is not a valid integer"

/-- Pydantic validation of a `str` field. -/
def validateStr : Value → Except String String
  | Value.str s => Except.ok s
  | _ => Except.error "validation error: value is not a valid string"

/-- Pydantic validation of an optional `str`-like field (`EmailStr`,
`datetime` and plain `str | None` are all modelled as optional strings;
their format validation is library behaviour no claim exercises). -/
def validateOptStr : Option Value → Except String (Option String)
  | none => Except.ok none
  | some Value.null => Except.ok none
  | some (Value.str s) => Except.ok (some s)
  | some _ => Except.error "validation error: value is not a valid string"

/-- Field lookup honouring `populate_by_name`: the alias key is preferred,
the field name accepted. -/
def lookupAlias (d : PyDict) (aliasKey : String) (fieldName : String) : Option Value :=
  match dictLookup d aliasKey with
  | some v => some v
  | none => dictLookup d fieldName

/-- The `CustomerResponseWithIdOnlySchema`: the response DTO carrying only the
remote-assigned identity; `id` is a required `int` field. -/
structure CustomerResponseWithIdOnlySchema where
  id : Int

/-- Constructing `CustomerResponseWithIdOnlySchema(**record)`: a missing or
non-integer `id` raises a validation error. -/
def CustomerResponseWithIdOnlySchema.fromValue :
    Value → Except String CustomerResponseWithIdOnlySchema
  | Value.dict d =>
    match dictLookup d "id" with
    | some v => (validateInt v).map (fun n => ⟨n⟩)
    | none => Except.error "validation error: id: field required"
  | _ => Except.error "TypeError: argument after ** must be a mapping"

/-- The `PaymentResponseSchema`: `id` is a required `int` field. -/
structure PaymentResponseSchema where
  id : Int

/-- Constructing `PaymentResponseSchema(**record)`. -/
def PaymentResponseSchema.fromValue : Value → Except String PaymentResponseSchema
  | Value.dict d =>
    match dictLookup d "id" with
    | some v => (validateInt v).map (fun n => ⟨n⟩)
    | none => Except.error "validation error: id: field required"
  | _ => Except.error "TypeError: argument after ** must be a mapping"

/-- The `CustomerAddSchema`: creation payload for a customer.  `birthday` is a
`datetime` in the source, carried here as its string form. -/
structure CustomerAddSchema where
  first_name : String
  last_name : Option String
  email : Option String
  phones : Option (List String)
  birthday : Option String

/-- The `customer_dto.model_dump(exclude_none=True, by_alias=True)`. -/
def CustomerAddSchema.model_dump (c : CustomerAddSchema) : PyDict :=
  [("firstName", Value.str c.first_name)]
  ++ (match c.last_name with
      | some s => [("lastName", Value.str s)]
      | none => [])
  ++ (match c.email with
      | some s => [("email", Value.str s)]
      | none => [])
  ++ (match c.phones with
      | some xs => [("phones", Value.list (xs.map Value.str))]
      | none => [])
  ++ (match c.birthday with
      | some s => [("birthday", Value.str s)]
      | none => [])

/-- The `CustomerGetSchema`: a customer as read back from the backend (the
creation fields plus the required `id`); `phones` passes through the
`parse_phones` validator and must then be a list of strings or `None`. -/
structure CustomerGetSchema where
  first_name : String
  last_name : Option String
  email : Option String
  phones : Option (List String)
  birthday : Option String
  id : Int

/-- Constructing `CustomerGetSchema(**record)`. -/
def CustomerGetSchema.fromValue : Value → Except String CustomerGetSchema
  | Value.dict d => do
    let id ←
      match dictLookup d "id" with
      | some v => validateInt v
      | none => Except.error "validation error: id: field required"
    let first_name ←
      match lookupAlias d "firstName" "first_name" with
      | some v => validateStr v
      | none => Except.error "validation error: firstName: field required"
    let last_name ← validateOptStr (lookupAlias d "lastName" "last_name")
    let email ← validateOptStr (dictLookup d "email")
    let phones ←
      match dictLookup d "phones" with
      | none => Except.ok none
      | some v => do
        let v2 ← parse_phones v
        match v2 with
        | Value.null => Except.ok none
        | Value.list xs => (xs.mapM validateStr).map some
        | _ => Except.error "validation error: phones: list or None expected"
    let birthday ← validateOptStr (dictLookup d "birthday")
    Except.ok ⟨first_name, last_name, email, phones, birthday, id⟩
  | _ => Except.error "TypeError: argument after ** must be a mapping"

/-- The `OrderTypeEnum` (only `main` is enabled in the source). -/
inductive OrderTypeEnum where
  | main

/-- The string value of an `OrderTypeEnum` member. -/
def OrderTypeEnum.toStr : OrderTypeEnum → String
  | OrderTypeEnum.main => "main"

/-- The `OrderMethodEnum`. -/
inductive OrderMethodEnum where
  | phone
  | shopping_cart
  | one_click
  | price_decrease_request
  | landing_page
  | offline
  | app
  | live_chat
  | terminal
  | missed_call
  | messenger

/-- The string value of an `OrderMethodEnum` member. -/
def OrderMethodEnum.toStr : OrderMethodEnum → String
  | OrderMethodEnum.phone => "phone"
  | OrderMethodEnum.shopping_cart => "shopping-cart"
  | OrderMethodEnum.one_click => "one-click"
  | OrderMethodEnum.price_decrease_request => "price-decrease-request"
  | OrderMethodEnum.landing_page => "landing-page"
  | OrderMethodEnum.offline => "offline"
  | OrderMethodEnum.app => "app"
  | OrderMethodEnum.live_chat => "live-chat"
  | OrderMethodEnum.terminal => "terminal"
  | OrderMethodEnum.missed_call => "missed-call"
  | OrderMethodEnum.messenger => "messenger"

/-- The `OrderItemSchema`: one order line on creation.  The numeric fields are
`float` in the source; they are carried opaquely (never computed with) and
modelled as integers, which no claim's inputs distinguish. -/
structure OrderItemSchema where
  quantity : Int
  initial_price : Int
  purchase_price : Int
  product_name : String

/-- The `model_dump(by_alias=True)` rendering of one order item. -/
def OrderItemSchema.dumpValue (it : OrderItemSchema) : Value :=
  Value.dict [("quantity", Value.int it.quantity),
    ("initialPrice", Value.int it.initial_price),
    ("purchasePrice", Value.int it.purchase_price),
    ("productName", Value.str it.product_name)]

/-- The `OrderCreateSchema`: customer reference-by-id, item list (no minimum
length is declared in the source), order number, type and method. -/
structure OrderCreateSchema where
  customer : CustomerResponseWithIdOnlySchema
  items : List OrderItemSchema
  number : String
  order_type : OrderTypeEnum
  order_method : OrderMethodEnum

/-- The `order_dto.model_dump(exclude_none=True, by_alias=True)`. -/
def OrderCreateSchema.model_dump (o : OrderCreateSchema) : PyDict :=
  [("customer", Value.dict [("id", Value.int o.customer.id)]),
   ("items", Value.list (o.items.map OrderItemSchema.dumpValue)),
   ("number", Value.str o.number),
   ("orderType", Value.str o.order_type.toStr),
   ("orderMethod", Value.str o.order_method.toStr)]

/-- The `OfferSchema`: name and id of the offer attached to a read-back item. -/
structure OfferSchema where
  name : String
  id : Int

/-- Constructing `OfferSchema(**record)`. -/
def OfferSchema.fromValue : Value → Except String OfferSchema
  | Value.dict d => do
    let name ←
      match dictLookup d "name" with
      | some v => validateStr v
      | none => Except.error "validation error: name: field required"
    let id ←
      match dictLookup d "id" with
      | some v => validateInt v
      | none => Except.error "validation error: id: field required"
    Except.ok ⟨name, id⟩
  | _ => Except.error "TypeError: argument after ** must be a mapping"

/-- The `OrderItemGetSchema`: a read-back order item (creation fields plus `id`
and `offer`). -/
structure OrderItemGetSchema where
  quantity : Int
  initial_price : Int
  purchase_price : Int
  product_name : String
  id : Int
  offer : OfferSchema

/-- Constructing `OrderItemGetSchema(**record)`. -/
def OrderItemGetSchema.fromValue : Value → Except String OrderItemGetSchema
  | Value.dict d => do
    let quantity ←
      match dictLookup d "quantity" with
      | some v => validateInt v
      | none => Except.error "validation error: quantity: field required"
    let initial_price ←
      match lookupAlias d "initialPrice" "initial_price" with
      | some v => validateInt v
      | none => Except.error "validation error: initialPrice: field required"
    let purchase_price ←
      match lookupAlias d "purchasePrice" "purchase_price" with
      | some v => validateInt v
      | none => Except.error "validation error: purchasePrice: field required"
    let product_name ←
      match lookupAlias d "productName" "product_name" with
      | some v => validateStr v
      | none => Except.error "validation error: productName: field required"
    let id ←
      match dictLookup d "id" with
      | some v => validateInt v
      | none => Except.error "validation error: id: field required"
    let offer ←
      match dictLookup d "offer" with
      | some v => OfferSchema.fromValue v
      | none => Except.error "validation error: offer: field required"
    Except.ok ⟨quantity, initial_price, purchase_price, product_name, id, offer⟩
  | _ => Except.error "TypeError: argument after ** must be a mapping"

/-- The `OrderResponseSchema`: the backend's canonical view of an order.
`total_amount` is a `float` in the source, carried opaquely and modelled as
an integer. -/
structure OrderResponseSchema where
  id : Int
  number : String
  customer : CustomerGetSchema
  items : List OrderItemGetSchema
  total_amount : Int
  created_at : String

/-- Constructing `OrderResponseSchema(**record)`. -/
def OrderResponseSchema.fromValue : Value → Except String OrderResponseSchema
  | Value.dict d => do
    let id ←
      match dictLookup d "id" with
      | some v => validateInt v
      | none => Except.error "validation error: id: field required"
    let number ←
      match dictLookup d "number" with
      | some v => validateStr v
      | none => Except.error "validation error: number: field required"
    let customer ←
      match dictLookup d "customer" with
      | some v => CustomerGetSchema.fromValue v
      | none => Except.error "validation error: customer: field required"
    let items ←
      match dictLookup d "items" with
      | some (Value.list xs) => xs.mapM OrderItemGetSchema.fromValue
      | some _ => Except.error "validation error: items: list expected"
      | none => Except.error "validation error: items: field required"
    let total_amount ←
      match lookupAlias d "totalSumm" "total_amount" with
      | some v => validateInt v
      | none => Except.error "validation error: totalSumm: field required"
    let created_at ←
      match lookupAlias d "createdAt" "created_at" with
      | some v => validateStr v
      | none => Except.error "validation error: createdAt: field required"
    Except.ok ⟨id, number, customer, items, total_amount, created_at⟩
  | _ => Except.error "TypeError: argument after ** must be a mapping"

/-- The `PaymentTypeEnum`. -/
inductive PaymentTypeEnum where
  | cash
  | bank_card
  | e_money
  | bank_transfer
  | credit

/-- The string value of a `PaymentTypeEnum` member. -/
def PaymentTypeEnum.toStr : PaymentTypeEnum → String
  | PaymentTypeEnum.cash => "cash"
  | PaymentTypeEnum.bank_card => "bank-card"
  | PaymentTypeEnum.e_money => "e-money"
  | PaymentTypeEnum.bank_transfer => "bank-transfer"
  | PaymentTypeEnum.credit => "credit"

/-- The `PaymentStatusEnum`. -/
inductive PaymentStatusEnum where
  | not_paid
  | invoice
  | wait_approved
  | payment_start
  | canceled
  | fail
  | paid
  | returned

/-- The string value of a `PaymentStatusEnum` member. -/
def PaymentStatusEnum.toStr : PaymentStatusEnum → String
  | PaymentStatusEnum.not_paid => "not-paid"
  | PaymentStatusEnum.invoice => "invoice"
  | PaymentStatusEnum.wait_approved => "wait-approved"
  | PaymentStatusEnum.payment_start => "payment-start"
  | PaymentStatusEnum.canceled => "canceled"
  | PaymentStatusEnum.fail => "fail"
  | PaymentStatusEnum.paid => "paid"
  | PaymentStatusEnum.returned => "returned"

/-- The `PaymentCreateSchema`: order reference by id, amount (a `float` in the
source, carried opaquely and modelled as an integer), type, status and the
optional date/comment. -/
structure PaymentCreateSchema where
  order_id : Int
  amount : Int
  type : PaymentTypeEnum
  status : PaymentStatusEnum
  paid_at : Option String
  comment : Option String

/-- The `payment_dto.model_dump(exclude_none=True, exclude={"order_id"})` (no
`by_alias`, so field names are used, including `paid_at`). -/
def PaymentCreateSchema.model_dump (p : PaymentCreateSchema) : PyDict :=
  [("amount", Value.int p.amount),
   ("type", Value.str p.type.toStr),
   ("status", Value.str p.status.toStr)]
  ++ (match p.paid_at with
      | some s => [("paid_at", Value.str s)]
      | none => [])
  ++ (match p.comment with
      | some s => [("comment", Value.str s)]
      | none => [])

/-- The endpoint templates of `RetailCRMEndpoint`. -/
def RetailCRMEndpoint.CUSTOMERS_LIST : String := "/customers"

/-- The `RetailCRMEndpoint.CUSTOMERS_CREATE`. -/
def RetailCRMEndpoint.CUSTOMERS_CREATE : String := "/customers/create"

/-- The `RetailCRMEndpoint.ORDERS_LIST`. -/
def RetailCRMEndpoint.ORDERS_LIST : String := "/orders"

/-- The `RetailCRMEndpoint.ORDER_CREATE`. -/
def RetailCRMEndpoint.ORDER_CREATE : String := "/orders/create"

/-- The `RetailCRMEndpoint.ORDER_GET.build(order_id=...)`. -/
def RetailCRMEndpoint.ORDER_GET (order_id : Int) : String :=
  "/orders/" ++ toString order_id

/-- The `RetailCRMEndpoint.PAYMENTS_CREATE`. -/
def RetailCRMEndpoint.PAYMENTS_CREATE : String := "/orders/payments/create"

/-- Response normalization shared by the create operations:
`result.get(key) or result` — prefer the wrapped resource when truthy
(present and non-empty), otherwise treat the whole payload as the resource. -/
def normalizeWrapped (result : PyDict) (key : String) : Value :=
  let wrapped := dictGetD result key Value.null
  if wrapped.truthy then wrapped else Value.dict result

/-- The `RetailCRMService.create_customer`: POST the JSON-serialized dump under
the `customer` form field, normalize the response, and build the id-only
DTO.  The second component is the list of HTTP requests issued. -/
def create_customer (svc : RetailCRMService) (http : HttpRequest → HttpResponse)
    (customer_dto : CustomerAddSchema) :
    Except String CustomerResponseWithIdOnlySchema × List HttpRequest :=
  let customer_data := customer_dto.model_dump
  let r := make_request svc http HTTPMethod.POST RetailCRMEndpoint.CUSTOMERS_CREATE
    none (some [("customer", Value.str (jsonDumps (Value.dict customer_data)))]) none
  (r.1.bind (fun result =>
      CustomerResponseWithIdOnlySchema.fromValue (normalizeWrapped result "customer")),
   r.2)

/-- The `RetailCRMService.create_order`: POST the JSON-serialized dump under the
`order` form field, normalize the response, and build the full order DTO.
No emptiness check on `items` appears anywhere on this path. -/
def create_order (svc : RetailCRMService) (http : HttpRequest → HttpResponse)
    (order_dto : OrderCreateSchema) :
    Except String OrderResponseSchema × List HttpRequest :=
  let order_data := order_dto.model_dump
  let r := make_request svc http HTTPMethod.POST RetailCRMEndpoint.ORDER_CREATE
    none (some [("order", Value.str (jsonDumps (Value.dict order_data)))]) none
  (r.1.bind (fun result =>
      OrderResponseSchema.fromValue (normalizeWrapped result "order")),
   r.2)

/-- The `RetailCRMService.create_payment`: first GET the referenced order
(`/orders/{id}?by=id`); if that call raises, its error propagates; if the
returned payload has no truthy `success` or no truthy `order` record, fail
with `Order with id {id} not found`; only otherwise POST the payment. -/
def create_payment (svc : RetailCRMService) (http : HttpRequest → HttpResponse)
    (payment_dto : PaymentCreateSchema) :
    Except String PaymentResponseSchema × List HttpRequest :=
  let order_id := payment_dto.order_id
  let r1 := make_request svc http HTTPMethod.GET (RetailCRMEndpoint.ORDER_GET order_id)
    (some [("by", Value.str "id")]) none none
  match r1.1 with
  | Except.error e => (Except.error e, r1.2)
  | Except.ok order_response =>
    if !(dictGetD order_response "success" Value.null).truthy ||
        !(dictGetD order_response "order" Value.null).truthy then
      (Except.error ("Order with id " ++ toString order_id ++ " not found"), r1.2)
    else
      let payment_data := payment_dto.model_dump
      let payment_data := dictSet payment_data "order" (Value.dict [("id", Value.int order_id)])
      let r2 := make_request svc http HTTPMethod.POST RetailCRMEndpoint.PAYMENTS_CREATE
        none (some [("payment", Value.str (jsonDumps (Value.dict payment_data)))]) none
      (r2.1.bind (fun result =>
          PaymentResponseSchema.fromValue (normalizeWrapped result "payment")),
       r1.2 ++ r2.2)

/-- A scalar value (hits the assignment case of `flatten`). -/
def Value.isScalar : Value → Bool
  | Value.list _ => false
  | Value.dict _ => false
  | _ => true

/-- A key free of the bracket characters the flattener introduces (true of
every field name in the repository's schemas). -/
def bracketFree (s : String) : Prop :=
  Char.ofNat 91 ∉ s.data ∧ Char.ofNat 93 ∉ s.data

instance (s : String) : Decidable (bracketFree s) := by
  unfold bracketFree; infer_instance

/-- The `key` extends `pfx` (i.e. `pfx` is a string prefix of `key`). -/
def strExt (pfx key : String) : Prop :=
  ∃ t : String, key = pfx ++ t

theorem strExt_rfl (s : String) : strExt s s :=
  ⟨"", (String.append_empty s).symm⟩

theorem strExt_append (pfx t : String) : strExt pfx (pfx ++ t) :=
  ⟨t, rfl⟩

theorem strExt_trans {a b c : String} (h1 : strExt a b) (h2 : strExt b c) : strExt a c := by
  obtain ⟨t, rfl⟩ := h1
  obtain ⟨u, rfl⟩ := h2
  exact ⟨t ++ u, String.append_assoc a t u⟩

theorem head_data_of_append (s t : String) (c : Char)
    (h : s.data.head? = some c) : (s ++ t).data.head? = some c := by
  rw [String.data_append]
  cases hs : s.data with
  | nil => rw [hs] at h; simp at h
  | cons x xs => rw [hs] at h; simpa using h

theorem not_strExt_of_head {pfx key : String} {c c2 : Char}
    (h1 : pfx.data.head? = some c) (h2 : key.data.head? = some c2)
    (hne : c ≠ c2) : ¬ strExt pfx key := by
  rintro ⟨t, rfl⟩
  rw [head_data_of_append pfx t c h1] at h2
  exact hne (Option.some.inj h2)

theorem dictLookup_dictSet_self (d : PyDict) (k : String) (v : Value) :
    dictLookup (dictSet d k v) k = some v := by
  induction d with
  | nil => simp [dictSet, dictLookup]
  | cons kv rest ih =>
    obtain ⟨k0, v0⟩ := kv
    by_cases h : k0 = k <;> simp [dictSet, dictLookup, h, ih]

theorem dictLookup_dictSet_ne (d : PyDict) (k k2 : String) (v : Value) (h : k2 ≠ k) :
    dictLookup (dictSet d k v) k2 = dictLookup d k2 := by
  have h2 : k ≠ k2 := fun he => h he.symm
  induction d with
  | nil => simp [dictSet, dictLookup, h2]
  | cons kv rest ih =>
    obtain ⟨k0, v0⟩ := kv
    by_cases h0 : k0 = k
    · subst h0
      simp [dictSet, dictLookup, h2]
    · simp [dictSet, dictLookup, h0, ih]

theorem dictKeys_nil_eq : dictKeys [] = [] := rfl

theorem dictKeys_cons_eq (kv : String × Value) (l : PyDict) :
    dictKeys (kv :: l) = kv.1 :: dictKeys l := rfl

theorem dictKeys_dictSet (d : PyDict) (k : String) (v : Value) :
    dictKeys (dictSet d k v) =
      if k ∈ dictKeys d then dictKeys d else dictKeys d ++ [k] := by
  induction d with
  | nil => simp [dictSet, dictKeys_nil_eq, dictKeys_cons_eq]
  | cons kv rest ih =>
    obtain ⟨k0, v0⟩ := kv
    by_cases h0 : k0 = k
    · subst h0
      simp [dictSet, dictKeys_cons_eq]
    · have hk0 : k ≠ k0 := fun he => h0 he.symm
      by_cases hm : k ∈ dictKeys rest <;>
        simp [dictSet, dictKeys_cons_eq, h0, hk0, hm, ih]

theorem mem_dictKeys_dictSet {d : PyDict} {k key : String} {v : Value}
    (h : key ∈ dictKeys (dictSet d k v)) : key ∈ dictKeys d ∨ key = k := by
  rw [dictKeys_dictSet] at h
  by_cases hm : k ∈ dictKeys d
  · rw [if_pos hm] at h
    exact Or.inl h
  · rw [if_neg hm] at h
    rcases List.mem_append.mp h with h1 | h1
    · exact Or.inl h1
    · exact Or.inr (List.mem_singleton.mp h1)

theorem dictKeys_subset_dictSet {d : PyDict} {key : String} (k : String) (v : Value)
    (h : key ∈ dictKeys d) : key ∈ dictKeys (dictSet d k v) := by
  rw [dictKeys_dictSet]
  by_cases hm : k ∈ dictKeys d
  · rwa [if_pos hm]
  · rw [if_neg hm]
    exact List.mem_append_left _ h

theorem nodup_dictKeys_dictSet (d : PyDict) (k : String) (v : Value)
    (hnd : (dictKeys d).Nodup) : (dictKeys (dictSet d k v)).Nodup := by
  rw [dictKeys_dictSet]
  by_cases hm : k ∈ dictKeys d
  · rwa [if_pos hm]
  · rw [if_neg hm]
    rw [List.nodup_append]
    exact ⟨hnd, List.nodup_singleton k, by
      intro a ha hb
      rw [List.mem_singleton] at hb
      exact hm (hb ▸ ha)⟩

theorem keyNodup_eq {l : PyDict} {k : String} {a b : Value}
    (hnd : (dictKeys l).Nodup) (h1 : (k, a) ∈ l) (h2 : (k, b) ∈ l) : a = b := by
  induction l with
  | nil => simp at h1
  | cons kv rest ih =>
    rw [dictKeys, List.map_cons, List.nodup_cons] at hnd
    rcases List.mem_cons.mp h1 with e1 | e1 <;> rcases List.mem_cons.mp h2 with e2 | e2
    · simpa using e1.trans e2.symm
    · exfalso
      apply hnd.1
      rw [← e1]
      have := List.mem_map_of_mem (fun kv : String × Value => kv.1) e2
      simpa using this
    · exfalso
      apply hnd.1
      rw [← e2]
      have := List.mem_map_of_mem (fun kv : String × Value => kv.1) e1
      simpa using this
    · exact ih hnd.2 e1 e2

theorem not_isNull_iff (v : Value) : (!v.isNull) = true ↔ v ≠ Value.null := by
  cases v <;> simp [Value.isNull]

theorem rbracket_append_inj {a b u v : List Char}
    (ha : Char.ofNat 93 ∉ a) (hb : Char.ofNat 93 ∉ b)
    (h : a ++ Char.ofNat 93 :: u = b ++ Char.ofNat 93 :: v) : a = b ∧ u = v := by
  induction a generalizing b with
  | nil =>
    cases b with
    | nil => simpa using h
    | cons x xs =>
      exfalso
      rw [List.nil_append, List.cons_append] at h
      have hx : Char.ofNat 93 = x := by
        have := congrArg List.head? h
        simpa using this
      exact hb (by rw [← hx]; exact List.mem_cons_self _ _)
  | cons y ys ih =>
    cases b with
    | nil =>
      exfalso
      rw [List.nil_append, List.cons_append] at h
      have hy : y = Char.ofNat 93 := by
        have := congrArg List.head? h
        simpa using this
      exact ha (by rw [← hy]; exact List.mem_cons_self _ _)
    | cons x xs =>
      rw [List.cons_append, List.cons_append] at h
      injection h with h1 h2
      have ha2 : Char.ofNat 93 ∉ ys := fun hm => ha (List.mem_cons_of_mem _ hm)
      have hb2 : Char.ofNat 93 ∉ xs := fun hm => hb (List.mem_cons_of_mem _ hm)
      obtain ⟨he, hu⟩ := ih ha2 hb2 h2
      exact ⟨by rw [h1, he], hu⟩

theorem filter_ext_inj {k k2 t u : String}
    (h1 : Char.ofNat 93 ∉ k.data) (h2 : Char.ofNat 93 ∉ k2.data)
    (h : "filter[" ++ k ++ "]" ++ t = "filter[" ++ k2 ++ "]" ++ u) : k = k2 := by
  have hd := congrArg String.data h
  have hbr : ("]" : String).data = [Char.ofNat 93] := by decide
  simp only [String.data_append, List.append_assoc, hbr, List.singleton_append] at hd
  have hd2 := List.append_cancel_left hd
  exact String.ext (rbracket_append_inj h1 h2 hd2).1

theorem not_strExt_filter_of_ne {k k2 : String} (hne : k ≠ k2)
    (h1 : Char.ofNat 93 ∉ k.data) (h2 : Char.ofNat 93 ∉ k2.data) (t : String) :
    ¬ strExt ("filter[" ++ k2 ++ "]") ("filter[" ++ k ++ "]" ++ t) := by
  rintro ⟨u, hu⟩
  exact hne (filter_ext_inj h1 h2 hu)

theorem bracketFree_ne_filter_ext {k : String} (hbf : Char.ofNat 91 ∉ k.data)
    (w t : String) : k ≠ "filter[" ++ w ++ "]" ++ t := by
  intro he
  apply hbf
  rw [he]
  simp only [String.data_append]
  have hf : Char.ofNat 91 ∈ ("filter[" : String).data := by decide
  exact List.mem_append_left _ (List.mem_append_left _ (List.mem_append_left _ hf))

theorem filter_pfx_head (w : String) :
    ("filter[" ++ w ++ "]").data.head? = some (Char.ofNat 102) := by
  have h0 : ("filter[" : String).data.head? = some (Char.ofNat 102) := by decide
  exact head_data_of_append _ _ _ (head_data_of_append _ _ _ h0)

theorem not_strExt_filter_limit_page {w key : String}
    (hk : key = "limit" ∨ key = "page") : ¬ strExt ("filter[" ++ w ++ "]") key := by
  rcases hk with hk | hk <;> subst hk
  · exact @not_strExt_of_head ("filter[" ++ w ++ "]") "limit"
      (Char.ofNat 102) (Char.ofNat 108) (filter_pfx_head w) (by decide) (by decide)
  · exact @not_strExt_of_head ("filter[" ++ w ++ "]") "page"
      (Char.ofNat 102) (Char.ofNat 112) (filter_pfx_head w) (by decide) (by decide)

mutual

theorem dictLookup_flatten_ne (params : PyDict) (pfx : String) (v : Value) (key : String)
    (h : ¬ strExt pfx key) :
    dictLookup (flatten params pfx v) key = dictLookup params key :=
  match v with
  | Value.null =>
    dictLookup_dictSet_ne params pfx key _ (fun he => h (by rw [he]; exact strExt_rfl pfx))
  | Value.bool _ =>
    dictLookup_dictSet_ne params pfx key _ (fun he => h (by rw [he]; exact strExt_rfl pfx))
  | Value.int _ =>
    dictLookup_dictSet_ne params pfx key _ (fun he => h (by rw [he]; exact strExt_rfl pfx))
  | Value.str _ =>
    dictLookup_dictSet_ne params pfx key _ (fun he => h (by rw [he]; exact strExt_rfl pfx))
  | Value.dict kvs => dictLookup_flattenPairs_ne params pfx kvs key h
  | Value.list items => dictLookup_flattenItems_ne params pfx items key h

theorem dictLookup_flattenPairs_ne (params : PyDict) (pfx : String)
    (kvs : List (String × Value)) (key : String) (h : ¬ strExt pfx key) :
    dictLookup (flattenPairs params pfx kvs) key = dictLookup params key :=
  match kvs with
  | [] => rfl
  | (k, v) :: rest =>
    (dictLookup_flattenPairs_ne (flatten params (pfx ++ "[" ++ k ++ "]") v) pfx rest key h).trans
      (dictLookup_flatten_ne params (pfx ++ "[" ++ k ++ "]") v key
        (fun he => h (strExt_trans ⟨"[" ++ k ++ "]", by simp [String.append_assoc]⟩ he)))

theorem dictLookup_flattenItems_ne (params : PyDict) (pfx : String)
    (items : List Value) (key : String) (h : ¬ strExt pfx key) :
    dictLookup (flattenItems params pfx items) key = dictLookup params key :=
  match items with
  | [] => rfl
  | item :: rest =>
    (dictLookup_flattenItems_ne (flatten params (pfx ++ "[]") item) pfx rest key h).trans
      (dictLookup_flatten_ne params (pfx ++ "[]") item key
        (fun he => h (strExt_trans ⟨"[]", rfl⟩ he)))

end

mutual

theorem mem_dictKeys_flatten (params : PyDict) (pfx : String) (v : Value) (key : String)
    (h : key ∈ dictKeys (flatten params pfx v)) :
    key ∈ dictKeys params ∨ strExt pfx key :=
  match v with
  | Value.null => by
    rcases mem_dictKeys_dictSet h with h1 | h1
    · exact Or.inl h1
    · exact Or.inr (by rw [h1]; exact strExt_rfl pfx)
  | Value.bool _ => by
    rcases mem_dictKeys_dictSet h with h1 | h1
    · exact Or.inl h1
    · exact Or.inr (by rw [h1]; exact strExt_rfl pfx)
  | Value.int _ => by
    rcases mem_dictKeys_dictSet h with h1 | h1
    · exact Or.inl h1
    · exact Or.inr (by rw [h1]; exact strExt_rfl pfx)
  | Value.str _ => by
    rcases mem_dictKeys_dictSet h with h1 | h1
    · exact Or.inl h1
    · exact Or.inr (by rw [h1]; exact strExt_rfl pfx)
  | Value.dict kvs => mem_dictKeys_flattenPairs params pfx kvs key h
  | Value.list items => mem_dictKeys_flattenItems params pfx items key h

theorem mem_dictKeys_flattenPairs (params : PyDict) (pfx : String)
    (kvs : List (String × Value)) (key : String)
    (h : key ∈ dictKeys (flattenPairs params pfx kvs)) :
    key ∈ dictKeys params ∨ strExt pfx key :=
  match kvs with
  | [] => Or.inl h
  | (k, v) :: rest => by
    rcases mem_dictKeys_flattenPairs (flatten params (pfx ++ "[" ++ k ++ "]") v) pfx rest key h
        with h1 | h1
    · rcases mem_dictKeys_flatten params (pfx ++ "[" ++ k ++ "]") v key h1 with h2 | h2
      · exact Or.inl h2
      · exact Or.inr (strExt_trans ⟨"[" ++ k ++ "]", by simp [String.append_assoc]⟩ h2)
    · exact Or.inr h1

theorem mem_dictKeys_flattenItems (params : PyDict) (pfx : String)
    (items : List Value) (key : String)
    (h : key ∈ dictKeys (flattenItems params pfx items)) :
    key ∈ dictKeys params ∨ strExt pfx key :=
  match items with
  | [] => Or.inl h
  | item :: rest => by
    rcases mem_dictKeys_flattenItems (flatten params (pfx ++ "[]") item) pfx rest key h
        with h1 | h1
    · rcases mem_dictKeys_flatten params (pfx ++ "[]") item key h1 with h2 | h2
      · exact Or.inl h2
      · exact Or.inr (strExt_trans ⟨"[]", rfl⟩ h2)
    · exact Or.inr h1

end

theorem flatten_scalar (params : PyDict) (pfx : String) (v : Value)
    (h : v.isScalar = true) : flatten params pfx v = dictSet params pfx v := by
  cases v with
  | list items => simp [Value.isScalar] at h
  | dict kvs => simp [Value.isScalar] at h
  | null => rfl
  | bool b => rfl
  | int n => rfl
  | str s => rfl

theorem dictLookup_flattenFilterDict_ne (fd : PyDict) (params : PyDict) (key : String)
    (h : ∀ k ∈ dictKeys fd, ¬ strExt ("filter[" ++ k ++ "]") key) :
    dictLookup (flattenFilterDict params fd) key = dictLookup params key := by
  induction fd generalizing params with
  | nil => rfl
  | cons kv rest ih =>
    obtain ⟨k, v⟩ := kv
    have h1 : ∀ k2 ∈ dictKeys rest, ¬ strExt ("filter[" ++ k2 ++ "]") key :=
      fun k2 hk2 => h k2 (List.mem_cons_of_mem _ hk2)
    have h2 : ¬ strExt ("filter[" ++ k ++ "]") key :=
      h k (by rw [dictKeys_cons_eq]; exact List.mem_cons_self _ _)
    exact (ih (flatten params ("filter[" ++ k ++ "]") v) h1).trans
      (dictLookup_flatten_ne params ("filter[" ++ k ++ "]") v key h2)

theorem mem_dictKeys_flattenFilterDict (fd : PyDict) (params : PyDict) (key : String)
    (h : key ∈ dictKeys (flattenFilterDict params fd)) :
    key ∈ dictKeys params ∨
      ∃ k, k ∈ dictKeys fd ∧ strExt ("filter[" ++ k ++ "]") key := by
  induction fd generalizing params with
  | nil => exact Or.inl h
  | cons kv rest ih =>
    obtain ⟨k, v⟩ := kv
    rcases ih (flatten params ("filter[" ++ k ++ "]") v) h with h1 | ⟨k2, hk2, he⟩
    · rcases mem_dictKeys_flatten params ("filter[" ++ k ++ "]") v key h1 with h2 | h2
      · exact Or.inl h2
      · exact Or.inr ⟨k, by rw [dictKeys_cons_eq]; exact List.mem_cons_self _ _, h2⟩
    · exact Or.inr ⟨k2, by rw [dictKeys_cons_eq]; exact List.mem_cons_of_mem _ hk2, he⟩

theorem dictLookup_flattenFilterDict_scalar (fd : PyDict) (params : PyDict)
    (k : String) (v : Value) (hv : v.isScalar = true)
    (hlk : dictLookup fd k = some v) (hnd : (dictKeys fd).Nodup)
    (hbf : ∀ k2 ∈ dictKeys fd, Char.ofNat 93 ∉ k2.data) :
    dictLookup (flattenFilterDict params fd) ("filter[" ++ k ++ "]") = some v := by
  induction fd generalizing params with
  | nil => simp [dictLookup] at hlk
  | cons kv rest ih =>
    obtain ⟨k0, v0⟩ := kv
    rw [dictKeys_cons_eq, List.nodup_cons] at hnd
    by_cases h0 : k0 = k
    · subst h0
      rw [dictLookup, if_pos rfl] at hlk
      injection hlk with hv0
      subst hv0
      have hrest : ∀ k2 ∈ dictKeys rest, ¬ strExt ("filter[" ++ k2 ++ "]") ("filter[" ++ k0 ++ "]") := by
        intro k2 hk2
        have hne : k0 ≠ k2 := fun he => hnd.1 (he ▸ hk2)
        have hb0 : Char.ofNat 93 ∉ k0.data :=
          hbf k0 (by rw [dictKeys_cons_eq]; exact List.mem_cons_self _ _)
        have hb2 : Char.ofNat 93 ∉ k2.data :=
          hbf k2 (by rw [dictKeys_cons_eq]; exact List.mem_cons_of_mem _ hk2)
        have := not_strExt_filter_of_ne hne hb0 hb2 ""
        rwa [String.append_empty] at this
      show dictLookup
        (flattenFilterDict (flatten params ("filter[" ++ k0 ++ "]") v0) rest)
        ("filter[" ++ k0 ++ "]") = some v0
      rw [dictLookup_flattenFilterDict_ne rest _ _ hrest]
      rw [flatten_scalar _ _ _ hv]
      exact dictLookup_dictSet_self params _ v0
    · rw [dictLookup, if_neg h0] at hlk
      exact ih (flatten params ("filter[" ++ k0 ++ "]") v0) hlk hnd.2
        (fun k2 hk2 => hbf k2 (by rw [dictKeys_cons_eq]; exact List.mem_cons_of_mem _ hk2))


theorem mem_keys_splitAux_fst (l : PyDict) (acc : PyDict × PyDict) (key : String)
    (h : key ∈ dictKeys (splitLimitPageAux acc l).1) :
    key ∈ dictKeys acc.1 ∨ (key ∈ dictKeys l ∧ (key = "limit" ∨ key = "page")) := by
  induction l generalizing acc with
  | nil => exact Or.inl h
  | cons kv rest ih =>
    obtain ⟨k, v⟩ := kv
    rw [splitLimitPageAux] at h
    by_cases hk : k = "limit" ∨ k = "page"
    · rw [if_pos hk] at h
      rcases ih _ h with h1 | ⟨h1, h2⟩
      · rcases mem_dictKeys_dictSet h1 with h2 | h2
        · exact Or.inl h2
        · subst h2
          exact Or.inr ⟨by rw [dictKeys_cons_eq]; exact List.mem_cons_self _ _, hk⟩
      · exact Or.inr ⟨by rw [dictKeys_cons_eq]; exact List.mem_cons_of_mem _ h1, h2⟩
    · rw [if_neg hk] at h
      rcases ih _ h with h1 | ⟨h1, h2⟩
      · exact Or.inl h1
      · exact Or.inr ⟨by rw [dictKeys_cons_eq]; exact List.mem_cons_of_mem _ h1, h2⟩

theorem mem_keys_splitAux_snd (l : PyDict) (acc : PyDict × PyDict) (key : String)
    (h : key ∈ dictKeys (splitLimitPageAux acc l).2) :
    key ∈ dictKeys acc.2 ∨ (key ∈ dictKeys l ∧ key ≠ "limit" ∧ key ≠ "page") := by
  induction l generalizing acc with
  | nil => exact Or.inl h
  | cons kv rest ih =>
    obtain ⟨k, v⟩ := kv
    rw [splitLimitPageAux] at h
    by_cases hk : k = "limit" ∨ k = "page"
    · rw [if_pos hk] at h
      rcases ih _ h with h1 | ⟨h1, h2⟩
      · exact Or.inl h1
      · exact Or.inr ⟨by rw [dictKeys_cons_eq]; exact List.mem_cons_of_mem _ h1, h2⟩
    · rw [if_neg hk] at h
      rcases ih _ h with h1 | ⟨h1, h2⟩
      · rcases mem_dictKeys_dictSet h1 with h2 | h2
        · exact Or.inl h2
        · subst h2
          push_neg at hk
          exact Or.inr ⟨by rw [dictKeys_cons_eq]; exact List.mem_cons_self _ _, hk⟩
      · exact Or.inr ⟨by rw [dictKeys_cons_eq]; exact List.mem_cons_of_mem _ h1, h2⟩

theorem lookup_splitAux_fst_not_mem (l : PyDict) (acc : PyDict × PyDict) (k : String)
    (h : k ∉ dictKeys l) :
    dictLookup (splitLimitPageAux acc l).1 k = dictLookup acc.1 k := by
  induction l generalizing acc with
  | nil => rfl
  | cons kv rest ih =>
    obtain ⟨k0, v0⟩ := kv
    have hk0 : k ≠ k0 := by
      intro he
      exact h (by rw [dictKeys_cons_eq, he]; exact List.mem_cons_self _ _)
    have hrest : k ∉ dictKeys rest :=
      fun hm => h (by rw [dictKeys_cons_eq]; exact List.mem_cons_of_mem _ hm)
    rw [splitLimitPageAux]
    by_cases hc : k0 = "limit" ∨ k0 = "page"
    · rw [if_pos hc, ih _ hrest]
      exact dictLookup_dictSet_ne _ _ _ _ hk0
    · rw [if_neg hc, ih _ hrest]

theorem lookup_splitAux_snd_not_mem (l : PyDict) (acc : PyDict × PyDict) (k : String)
    (h : k ∉ dictKeys l) :
    dictLookup (splitLimitPageAux acc l).2 k = dictLookup acc.2 k := by
  induction l generalizing acc with
  | nil => rfl
  | cons kv rest ih =>
    obtain ⟨k0, v0⟩ := kv
    have hk0 : k ≠ k0 := by
      intro he
      exact h (by rw [dictKeys_cons_eq, he]; exact List.mem_cons_self _ _)
    have hrest : k ∉ dictKeys rest :=
      fun hm => h (by rw [dictKeys_cons_eq]; exact List.mem_cons_of_mem _ hm)
    rw [splitLimitPageAux]
    by_cases hc : k0 = "limit" ∨ k0 = "page"
    · rw [if_pos hc, ih _ hrest]
    · rw [if_neg hc, ih _ hrest]
      exact dictLookup_dictSet_ne _ _ _ _ hk0

theorem lookup_splitAux_fst_mem (l : PyDict) (acc : PyDict × PyDict) (k : String) (v : Value)
    (hk : k = "limit" ∨ k = "page") (h : (k, v) ∈ l) (hnd : (dictKeys l).Nodup) :
    dictLookup (splitLimitPageAux acc l).1 k = some v := by
  induction l generalizing acc with
  | nil => simp at h
  | cons kv rest ih =>
    obtain ⟨k0, v0⟩ := kv
    rw [dictKeys_cons_eq, List.nodup_cons] at hnd
    rcases List.mem_cons.mp h with he | he
    · have hkk : k0 = k := by
        have := congrArg Prod.fst he
        simpa using this.symm
      subst hkk
      have hvv : v0 = v := by
        have := congrArg Prod.snd he
        simpa using this.symm
      subst hvv
      have hrest : k0 ∉ dictKeys rest := hnd.1
      rw [splitLimitPageAux, if_pos hk]
      rw [lookup_splitAux_fst_not_mem rest _ k0 hrest]
      exact dictLookup_dictSet_self _ _ _
    · have hk0 : k0 ≠ k := by
        intro hee
        apply hnd.1
        rw [hee]
        have := List.mem_map_of_mem (fun kv : String × Value => kv.1) he
        simpa [dictKeys] using this
      rw [splitLimitPageAux]
      by_cases hc : k0 = "limit" ∨ k0 = "page"
      · rw [if_pos hc]
        exact ih _ he hnd.2
      · rw [if_neg hc]
        exact ih _ he hnd.2

theorem lookup_splitAux_snd_mem (l : PyDict) (acc : PyDict × PyDict) (k : String) (v : Value)
    (hk1 : k ≠ "limit") (hk2 : k ≠ "page") (h : (k, v) ∈ l)
    (hnd : (dictKeys l).Nodup) :
    dictLookup (splitLimitPageAux acc l).2 k = some v := by
  induction l generalizing acc with
  | nil => simp at h
  | cons kv rest ih =>
    obtain ⟨k0, v0⟩ := kv
    rw [dictKeys_cons_eq, List.nodup_cons] at hnd
    rcases List.mem_cons.mp h with he | he
    · have hkk : k0 = k := by
        have := congrArg Prod.fst he
        simpa using this.symm
      subst hkk
      have hvv : v0 = v := by
        have := congrArg Prod.snd he
        simpa using this.symm
      subst hvv
      have hc : ¬ (k0 = "limit" ∨ k0 = "page") := by
        rintro (hc | hc)
        · exact hk1 hc
        · exact hk2 hc
      rw [splitLimitPageAux, if_neg hc]
      rw [lookup_splitAux_snd_not_mem rest _ k0 hnd.1]
      exact dictLookup_dictSet_self _ _ _
    · rw [splitLimitPageAux]
      by_cases hc : k0 = "limit" ∨ k0 = "page"
      · rw [if_pos hc]
        exact ih _ he hnd.2
      · rw [if_neg hc]
        exact ih _ he hnd.2

theorem nodup_keys_splitAux_snd (l : PyDict) (acc : PyDict × PyDict)
    (hacc : (dictKeys acc.2).Nodup) :
    (dictKeys (splitLimitPageAux acc l).2).Nodup := by
  induction l generalizing acc with
  | nil => exact hacc
  | cons kv rest ih =>
    obtain ⟨k, v⟩ := kv
    rw [splitLimitPageAux]
    by_cases hc : k = "limit" ∨ k = "page"
    · rw [if_pos hc]
      exact ih _ hacc
    · rw [if_neg hc]
      exact ih _ (nodup_dictKeys_dictSet _ _ _ hacc)

theorem dictKeys_filterNull_sublist (ents : PyDict) :
    List.Sublist (dictKeys (ents.filter (fun kv => !kv.2.isNull))) (dictKeys ents) :=
  List.Sublist.map _ (List.filter_sublist ents)

theorem nodup_keys_filterNull {ents : PyDict} (hnd : (dictKeys ents).Nodup) :
    (dictKeys (ents.filter (fun kv => !kv.2.isNull))).Nodup :=
  List.Nodup.sublist (dictKeys_filterNull_sublist ents) hnd

theorem mem_filterNull {ents : PyDict} {k : String} {v : Value}
    (h : (k, v) ∈ ents) (hv : v ≠ Value.null) :
    (k, v) ∈ ents.filter (fun kv => !kv.2.isNull) :=
  List.mem_filter.mpr ⟨h, (not_isNull_iff v).mpr hv⟩

theorem not_mem_keys_filterNull {ents : PyDict} {k : String}
    (hnd : (dictKeys ents).Nodup) (h : (k, Value.null) ∈ ents) :
    k ∉ dictKeys (ents.filter (fun kv => !kv.2.isNull)) := by
  intro hmem
  obtain ⟨kv2, hmem2, hk⟩ := List.mem_map.mp hmem
  obtain ⟨k2, v2⟩ := kv2
  obtain ⟨hin, hpred⟩ := List.mem_filter.mp hmem2
  have hk2 : k2 = k := by simpa using hk
  subst hk2
  have hv2 : v2 ≠ Value.null := (not_isNull_iff v2).mp hpred
  exact hv2 (keyNodup_eq hnd hin h)

theorem mem_dictKeys_of_mem {ents : PyDict} {k : String} {v : Value}
    (h : (k, v) ∈ ents) : k ∈ dictKeys ents := by
  have := List.mem_map_of_mem (fun kv : String × Value => kv.1) h
  simpa [dictKeys] using this

/-- C2: the filter-flattening function emits `limit` and `page` (when present
and not `None`) as top-level output keys, never nested under `filter[...]`;
every other scalar-valued key `k` yields `filter[k] = v`; `None`-valued
entries produce no key at all; a mapping-valued entry recurses into
`filter[k][subkey]`; and the example `{name: "John", limit: 10, page: 2}`
flattens exactly to `{limit: 10, page: 2, filter[name]: "John"}`.  The
hypotheses state that the input is a real Python dictionary (distinct keys)
with bracket-free key names, true of every schema-derived filter. -/
theorem c2_filter_flattening (ents : PyDict)
    (hnd : (dictKeys ents).Nodup) (hbf : ∀ key ∈ dictKeys ents, bracketFree key) :
    (∀ v, v ≠ Value.null → ("limit", v) ∈ ents →
        dictLookup (convert_filter_data_to_retail_crm_style ents) "limit" = some v) ∧
    (∀ v, v ≠ Value.null → ("page", v) ∈ ents →
        dictLookup (convert_filter_data_to_retail_crm_style ents) "page" = some v) ∧
    (∀ key ∈ dictKeys (convert_filter_data_to_retail_crm_style ents),
        key = "limit" ∨ key = "page" ∨ ∃ t, key = "filter[" ++ t) ∧
    (∀ key ∈ dictKeys (convert_filter_data_to_retail_crm_style ents),
        ¬ strExt "filter[limit]" key ∧ ¬ strExt "filter[page]" key) ∧
    (∀ k v, (k, v) ∈ ents → v.isScalar = true → v ≠ Value.null →
        k ≠ "limit" → k ≠ "page" →
        dictLookup (convert_filter_data_to_retail_crm_style ents)
          ("filter[" ++ k ++ "]") = some v) ∧
    (∀ k, (k, Value.null) ∈ ents →
        ∀ key ∈ dictKeys (convert_filter_data_to_retail_crm_style ents),
          key ≠ k ∧ ¬ strExt ("filter[" ++ k ++ "]") key) ∧
    (convert_filter_data_to_retail_crm_style
        [("name", Value.str "John"), ("limit", Value.int 10), ("page", Value.int 2)] =
      [("limit", Value.int 10), ("page", Value.int 2), ("filter[name]", Value.str "John")]) ∧
    (convert_filter_data_to_retail_crm_style
        [("a", Value.dict [("b", Value.str "c")]), ("limit", Value.int 1)] =
      [("limit", Value.int 1), ("filter[a][b]", Value.str "c")]) := by
  have hndf : (dictKeys (ents.filter (fun kv => !kv.2.isNull))).Nodup :=
    nodup_keys_filterNull hnd
  have hsub : ∀ k2 ∈ dictKeys (ents.filter (fun kv => !kv.2.isNull)), k2 ∈ dictKeys ents :=
    fun k2 hk2 => (dictKeys_filterNull_sublist ents).subset hk2
  have hel : ("filter[limit]" : String) = "filter[" ++ "limit" ++ "]" := by decide
  have hep : ("filter[page]" : String) = "filter[" ++ "page" ++ "]" := by decide
  refine ⟨?_, ?_, ?_, ?_, ?_, ?_, rfl, rfl⟩
  · intro v hv hmem
    have hmf := mem_filterNull hmem hv
    have h1 := lookup_splitAux_fst_mem _ ([], []) "limit" v (Or.inl rfl) hmf hndf
    have h2 : ∀ k ∈ dictKeys (splitLimitPageAux ([], []) (ents.filter (fun kv => !kv.2.isNull))).2,
        ¬ strExt ("filter[" ++ k ++ "]") "limit" :=
      fun k _ => not_strExt_filter_limit_page (Or.inl rfl)
    exact (dictLookup_flattenFilterDict_ne _ _ _ h2).trans h1
  · intro v hv hmem
    have hmf := mem_filterNull hmem hv
    have h1 := lookup_splitAux_fst_mem _ ([], []) "page" v (Or.inr rfl) hmf hndf
    have h2 : ∀ k ∈ dictKeys (splitLimitPageAux ([], []) (ents.filter (fun kv => !kv.2.isNull))).2,
        ¬ strExt ("filter[" ++ k ++ "]") "page" :=
      fun k _ => not_strExt_filter_limit_page (Or.inr rfl)
    exact (dictLookup_flattenFilterDict_ne _ _ _ h2).trans h1
  · intro key hkey
    rcases mem_dictKeys_flattenFilterDict _ _ _ hkey with h1 | ⟨k, _, he⟩
    · rcases mem_keys_splitAux_fst _ _ _ h1 with h2 | ⟨_, h3 | h3⟩
      · simp [dictKeys_nil_eq] at h2
      · exact Or.inl h3
      · exact Or.inr (Or.inl h3)
    · obtain ⟨t, rfl⟩ := he
      exact Or.inr (Or.inr ⟨k ++ ("]" ++ t), by simp [String.append_assoc]⟩)
  · intro key hkey
    rcases mem_dictKeys_flattenFilterDict _ _ _ hkey with h1 | ⟨k, hk, he⟩
    · rcases mem_keys_splitAux_fst _ _ _ h1 with h2 | ⟨_, hlp⟩
      · simp [dictKeys_nil_eq] at h2
      · constructor
        · rw [hel]
          exact not_strExt_filter_limit_page hlp
        · rw [hep]
          exact not_strExt_filter_limit_page hlp
    · obtain ⟨t, rfl⟩ := he
      rcases mem_keys_splitAux_snd _ _ _ hk with h2 | ⟨hkf, hkl, hkp⟩
      · simp [dictKeys_nil_eq] at h2
      · have hbk : bracketFree k := hbf k (hsub k hkf)
        constructor
        · rw [hel]
          exact not_strExt_filter_of_ne hkl hbk.2 (by decide) t
        · rw [hep]
          exact not_strExt_filter_of_ne hkp hbk.2 (by decide) t
  · intro k v hmem hsc hv hk1 hk2
    have hmf := mem_filterNull hmem hv
    have hlk := lookup_splitAux_snd_mem _ ([], []) k v hk1 hk2 hmf hndf
    have hnd2 : (dictKeys (splitLimitPageAux ([], []) (ents.filter (fun kv => !kv.2.isNull))).2).Nodup :=
      nodup_keys_splitAux_snd _ _ (by simp [dictKeys_nil_eq])
    have hbf2 : ∀ k2 ∈ dictKeys (splitLimitPageAux ([], []) (ents.filter (fun kv => !kv.2.isNull))).2,
        Char.ofNat 93 ∉ k2.data := by
      intro k2 hk2m
      rcases mem_keys_splitAux_snd _ _ _ hk2m with h2 | ⟨hkf, _, _⟩
      · simp [dictKeys_nil_eq] at h2
      · exact (hbf k2 (hsub k2 hkf)).2
    exact dictLookup_flattenFilterDict_scalar _ _ k v hsc hlk hnd2 hbf2
  · intro k hmem key hkey
    have hknotin : k ∉ dictKeys (ents.filter (fun kv => !kv.2.isNull)) :=
      not_mem_keys_filterNull hnd hmem
    have hbfk : bracketFree k := hbf k (mem_dictKeys_of_mem hmem)
    rcases mem_dictKeys_flattenFilterDict _ _ _ hkey with h1 | ⟨k2, hk2, he⟩
    · rcases mem_keys_splitAux_fst _ _ _ h1 with h2 | ⟨h3, hlp⟩
      · simp [dictKeys_nil_eq] at h2
      · constructor
        · intro hekey
          exact hknotin (hekey ▸ h3)
        · exact not_strExt_filter_limit_page hlp
    · obtain ⟨t, rfl⟩ := he
      rcases mem_keys_splitAux_snd _ _ _ hk2 with h2 | ⟨hkf, _, _⟩
      · simp [dictKeys_nil_eq] at h2
      · have hne : k2 ≠ k := by
          intro hee
          exact hknotin (hee ▸ hkf)
        have hbk2 : bracketFree k2 := hbf k2 (hsub k2 hkf)
        exact ⟨Ne.symm (bracketFree_ne_filter_ext hbfk.1 k2 t),
          not_strExt_filter_of_ne hne hbk2.2 hbfk.2 t⟩

theorem make_request_eq_transport (svc : RetailCRMService)
    (http : HttpRequest → HttpResponse) (method endpoint : String)
    (params json_data headers : Option PyDict) (r : HttpResponse)
    (hr : http (builtRequest svc method endpoint params json_data headers) = r)
    (h : r.status < 200 ∨ 300 ≤ r.status) :
    make_request svc http method endpoint params json_data headers =
      (Except.error ("CRM API error: HTTP " ++ toString r.status ++ ": " ++ r.text),
        [builtRequest svc method endpoint params json_data headers]) := by
  simp only [make_request]
  rw [hr, if_pos h]

theorem make_request_eq_semantic (svc : RetailCRMService)
    (http : HttpRequest → HttpResponse) (method endpoint : String)
    (params json_data headers : Option PyDict) (r : HttpResponse) (resp : PyDict)
    (hr : http (builtRequest svc method endpoint params json_data headers) = r)
    (hst : ¬ (r.status < 200 ∨ 300 ≤ r.status))
    (hj : r.json = Except.ok resp)
    (hsucc : (dictGetD resp "success" (Value.bool false)).truthy = false) :
    make_request svc http method endpoint params json_data headers =
      (Except.error ("Request error: " ++ ("RetailCRM API error: " ++
          pyStr (dictGetD resp "errorMsg" (Value.str "Unknown error")))),
        [builtRequest svc method endpoint params json_data headers]) := by
  simp only [make_request]
  rw [hr, if_neg hst, hj]
  have hv : validate_response resp =
      Except.error ("RetailCRM API error: " ++
        pyStr (dictGetD resp "errorMsg" (Value.str "Unknown error"))) := by
    rw [validate_response, hsucc]
    rfl
  simp only [hv]

theorem make_request_eq_ok (svc : RetailCRMService)
    (http : HttpRequest → HttpResponse) (method endpoint : String)
    (params json_data headers : Option PyDict) (r : HttpResponse) (resp : PyDict)
    (hr : http (builtRequest svc method endpoint params json_data headers) = r)
    (hst : ¬ (r.status < 200 ∨ 300 ≤ r.status))
    (hj : r.json = Except.ok resp)
    (hsucc : (dictGetD resp "success" (Value.bool false)).truthy = true) :
    make_request svc http method endpoint params json_data headers =
      (Except.ok resp,
        [builtRequest svc method endpoint params json_data headers]) := by
  simp only [make_request]
  rw [hr, if_neg hst, hj]
  have hv : validate_response resp = Except.ok () := by
    rw [validate_response, hsucc]
    rfl
  simp only [hv]

/-- C6: a non-2xx outbound response makes `_make_request` fail after its
single attempt (exactly one request issued, no retry) with the transport
error message carrying the numeric status code and the response body text. -/
theorem c6_transport_error (svc : RetailCRMService) (http : HttpRequest → HttpResponse)
    (method endpoint : String) (params json_data headers : Option PyDict)
    (r : HttpResponse)
    (hr : http (builtRequest svc method endpoint params json_data headers) = r)
    (h : r.status < 200 ∨ 300 ≤ r.status) :
    make_request svc http method endpoint params json_data headers =
      (Except.error ("CRM API error: HTTP " ++ toString r.status ++ ": " ++ r.text),
        [builtRequest svc method endpoint params json_data headers]) ∧
    (make_request svc http method endpoint params json_data headers).2.length = 1 ∧
    strExt "CRM API error: HTTP "
      ("CRM API error: HTTP " ++ toString r.status ++ ": " ++ r.text) := by
  refine ⟨?_, ?_, ?_⟩
  · simp only [make_request]
    rw [hr, if_pos h]
  · rfl
  · exact ⟨toString r.status ++ (": " ++ r.text), by simp [String.append_assoc]⟩

/-- Witness for `c6_transport_error` at a concrete 500 response. -/
theorem c6_transport_error_witness :
    make_request ⟨"abc123", "http://crm"⟩ (fun _ => ⟨500, "internal", Except.error "x"⟩)
        HTTPMethod.GET "/customers" none none none =
      (Except.error "CRM API error: HTTP 500: internal",
        [builtRequest ⟨"abc123", "http://crm"⟩ HTTPMethod.GET "/customers" none none none]) := by
  have h := c6_transport_error ⟨"abc123", "http://crm"⟩
    (fun _ => ⟨500, "internal", Except.error "x"⟩) HTTPMethod.GET "/customers"
    none none none ⟨500, "internal", Except.error "x"⟩ rfl (by right; decide)
  exact h.1

/-- C5: a 2xx response whose payload's own success indicator is falsy makes
the operation fail with the semantic error message `Request error: RetailCRM
API error: <backend text>`; that message carries the backend-supplied text
and is never of the transport-error shape `CRM API error: HTTP ...`, while
every transport failure is of that shape — the two failure modes are
distinguishable. -/
theorem c5_semantic_error (svc : RetailCRMService) (http : HttpRequest → HttpResponse)
    (method endpoint : String) (params json_data headers : Option PyDict)
    (r : HttpResponse) (resp : PyDict) (m : String)
    (hr : http (builtRequest svc method endpoint params json_data headers) = r)
    (hst : ¬ (r.status < 200 ∨ 300 ≤ r.status))
    (hj : r.json = Except.ok resp)
    (hsucc : (dictGetD resp "success" (Value.bool false)).truthy = false)
    (hmsg : dictGetD resp "errorMsg" (Value.str "Unknown error") = Value.str m) :
    make_request svc http method endpoint params json_data headers =
      (Except.error ("Request error: " ++ ("RetailCRM API error: " ++ m)),
        [builtRequest svc method endpoint params json_data headers]) ∧
    (∃ a : String, "Request error: " ++ ("RetailCRM API error: " ++ m) = a ++ m) ∧
    ¬ strExt "CRM API error: HTTP " ("Request error: " ++ ("RetailCRM API error: " ++ m)) ∧
    (∀ status : Nat, ∀ text : String,
      strExt "CRM API error: HTTP "
        ("CRM API error: HTTP " ++ toString status ++ ": " ++ text)) := by
  refine ⟨?_, ?_, ?_, ?_⟩
  · simp only [make_request]
    rw [hr, if_neg hst, hj]
    have hv : validate_response resp =
        Except.error ("RetailCRM API error: " ++ m) := by
      rw [validate_response, hsucc, hmsg]
      rfl
    simp only [hv]
  · exact ⟨"Request error: " ++ "RetailCRM API error: ",
      (String.append_assoc _ _ _).symm⟩
  · exact @not_strExt_of_head "CRM API error: HTTP "
      ("Request error: " ++ ("RetailCRM API error: " ++ m))
      (Char.ofNat 67) (Char.ofNat 82) (by decide)
      (head_data_of_append _ _ _ (by decide)) (by decide)
  · intro status text
    exact ⟨toString status ++ (": " ++ text), by simp [String.append_assoc]⟩

/-- Witness for `c5_semantic_error` at a concrete `success: false` payload. -/
theorem c5_semantic_error_witness :
    make_request ⟨"abc123", "http://crm"⟩
        (fun _ => ⟨200, "", Except.ok [("success", Value.bool false),
          ("errorMsg", Value.str "bad")]⟩)
        HTTPMethod.GET "/customers" none none none =
      (Except.error "Request error: RetailCRM API error: bad",
        [builtRequest ⟨"abc123", "http://crm"⟩ HTTPMethod.GET "/customers" none none none]) := by
  have h := c5_semantic_error ⟨"abc123", "http://crm"⟩
    (fun _ => ⟨200, "", Except.ok [("success", Value.bool false),
      ("errorMsg", Value.str "bad")]⟩)
    HTTPMethod.GET "/customers" none none none
    ⟨200, "", Except.ok [("success", Value.bool false), ("errorMsg", Value.str "bad")]⟩
    [("success", Value.bool false), ("errorMsg", Value.str "bad")] "bad"
    rfl (by simp) rfl rfl rfl
  exact h.1

/-- C10 amended: a 2xx payload with no `success` key at all is classified as
a backend failure — the missing indicator defaults to `False` and validation
raises with the backend message, or `Unknown error` when no `errorMsg` field
is present; consequently every payload that passes validation carried a
truthy `success` value (the key is necessarily present, though its value
need not be the boolean `true`). -/
theorem c10_missing_success (resp : PyDict) :
    (dictLookup resp "success" = none →
      validate_response resp = Except.error
        ("RetailCRM API error: " ++
          pyStr (dictGetD resp "errorMsg" (Value.str "Unknown error")))) ∧
    (dictLookup resp "success" = none → dictLookup resp "errorMsg" = none →
      validate_response resp = Except.error "RetailCRM API error: Unknown error") ∧
    (validate_response resp = Except.ok () →
      (dictGetD resp "success" (Value.bool false)).truthy = true ∧
      dictLookup resp "success" ≠ none) := by
  refine ⟨?_, ?_, ?_⟩
  · intro h
    rw [validate_response]
    have hd : dictGetD resp "success" (Value.bool false) = Value.bool false := by
      rw [dictGetD, h]
      rfl
    rw [hd]
    rfl
  · intro h h2
    rw [validate_response]
    have hd : dictGetD resp "success" (Value.bool false) = Value.bool false := by
      rw [dictGetD, h]
      rfl
    have hm : dictGetD resp "errorMsg" (Value.str "Unknown error") =
        Value.str "Unknown error" := by
      rw [dictGetD, h2]
      rfl
    rw [hd, hm]
    rfl
  · intro h
    by_cases htr : (dictGetD resp "success" (Value.bool false)).truthy = true
    · refine ⟨htr, ?_⟩
      intro hn
      rw [dictGetD, hn] at htr
      simp [Value.truthy] at htr
    · exfalso
      rw [validate_response] at h
      rw [Bool.not_eq_true] at htr
      rw [htr] at h
      simp at h

/-- Witness for `c10_missing_success`: a payload with no `success` key and no
`errorMsg` fails validation with the defaulted message. -/
theorem c10_missing_success_witness :
    validate_response [("customer", Value.dict [("id", Value.int 5)])] =
      Except.error "RetailCRM API error: Unknown error" :=
  (c10_missing_success [("customer", Value.dict [("id", Value.int 5)])]).2.1 rfl rfl

/-- C10 counterexample: a payload whose `success` value is the integer `1`
(truthy but not the boolean `true`) passes validation and is normalized by
`create_customer`, so a normalized payload did not necessarily contain
`success=true`. -/
theorem c10_counterexample :
    validate_response [("success", Value.int 1),
        ("customer", Value.dict [("id", Value.int 5)])] = Except.ok () ∧
    dictLookup [("success", Value.int 1), ("customer", Value.dict [("id", Value.int 5)])]
        "success" = some (Value.int 1) ∧
    Value.int 1 ≠ Value.bool true ∧
    (create_customer ⟨"abc123", "http://crm"⟩
        (fun _ => ⟨200, "", Except.ok [("success", Value.int 1),
          ("customer", Value.dict [("id", Value.int 5)])]⟩)
        ⟨"John", none, none, none, none⟩).1 =
      Except.ok ⟨5⟩ := by
  refine ⟨rfl, rfl, ?_, rfl⟩
  intro h
  exact Value.noConfusion h

theorem dictGetD_of_truthy {d : PyDict} {k : String} {a : Value}
    (h : (dictGetD d k a).truthy = true) (hat : a.truthy = false) (b : Value) :
    dictGetD d k b = dictGetD d k a := by
  rw [dictGetD, dictGetD]
  cases hlk : dictLookup d k with
  | none =>
    exfalso
    rw [dictGetD, hlk] at h
    simp only [Option.getD] at h
    rw [h] at hat
    exact Bool.noConfusion hat
  | some w => rfl

/-- C1 amended: `create_payment` always issues the order-existence GET as its
first (and, on any read failure, only) HTTP request.  If that GET returns a
non-2xx status its transport error propagates; if its 2xx payload fails
validation (falsy `success`) the semantic error propagates; if the validated
payload has no truthy `order` record the operation fails with
`Order with id {id} not found`.  In every one of these cases the only issued
request is the GET — the payment-creation POST is never issued (the read's
transport/semantic failures propagate with their own messages rather than as
a not-found-shaped error). -/
theorem c1_payment_read_before_write (svc : RetailCRMService)
    (http : HttpRequest → HttpResponse) (dto : PaymentCreateSchema) (r : HttpResponse)
    (hr : ∀ q : HttpRequest, q.method = HTTPMethod.GET → http q = r) :
    ((create_payment svc http dto).2.head? =
      some (builtRequest svc HTTPMethod.GET (RetailCRMEndpoint.ORDER_GET dto.order_id)
        (some [("by", Value.str "id")]) none none)) ∧
    (r.status < 200 ∨ 300 ≤ r.status →
      create_payment svc http dto =
        (Except.error ("CRM API error: HTTP " ++ toString r.status ++ ": " ++ r.text),
          [builtRequest svc HTTPMethod.GET (RetailCRMEndpoint.ORDER_GET dto.order_id)
            (some [("by", Value.str "id")]) none none])) ∧
    (∀ resp : PyDict, ¬ (r.status < 200 ∨ 300 ≤ r.status) → r.json = Except.ok resp →
      (dictGetD resp "success" (Value.bool false)).truthy = false →
      create_payment svc http dto =
        (Except.error ("Request error: " ++ ("RetailCRM API error: " ++
            pyStr (dictGetD resp "errorMsg" (Value.str "Unknown error")))),
          [builtRequest svc HTTPMethod.GET (RetailCRMEndpoint.ORDER_GET dto.order_id)
            (some [("by", Value.str "id")]) none none])) ∧
    (∀ resp : PyDict, ¬ (r.status < 200 ∨ 300 ≤ r.status) → r.json = Except.ok resp →
      (dictGetD resp "success" (Value.bool false)).truthy = true →
      (dictGetD resp "order" Value.null).truthy = false →
      create_payment svc http dto =
        (Except.error ("Order with id " ++ toString dto.order_id ++ " not found"),
          [builtRequest svc HTTPMethod.GET (RetailCRMEndpoint.ORDER_GET dto.order_id)
            (some [("by", Value.str "id")]) none none])) ∧
    (builtRequest svc HTTPMethod.GET (RetailCRMEndpoint.ORDER_GET dto.order_id)
        (some [("by", Value.str "id")]) none none).method = HTTPMethod.GET ∧
    HTTPMethod.GET ≠ HTTPMethod.POST := by
  refine ⟨?_, ?_, ?_, ?_, rfl, by decide⟩
  · simp only [create_payment]
    cases hcase : (make_request svc http HTTPMethod.GET
        (RetailCRMEndpoint.ORDER_GET dto.order_id)
        (some [("by", Value.str "id")]) none none).1 with
    | error e =>
      simp only [hcase]
      rfl
    | ok resp =>
      simp only [hcase]
      by_cases hc : (!(dictGetD resp "success" Value.null).truthy ||
          !(dictGetD resp "order" Value.null).truthy) = true
      · rw [if_pos hc]
        rfl
      · rw [if_neg hc]
        rfl
  · intro hst
    have h1 := make_request_eq_transport svc http HTTPMethod.GET
      (RetailCRMEndpoint.ORDER_GET dto.order_id) (some [("by", Value.str "id")]) none none
      r (hr _ rfl) hst
    simp only [create_payment, h1]
  · intro resp hst hj hsucc
    have h1 := make_request_eq_semantic svc http HTTPMethod.GET
      (RetailCRMEndpoint.ORDER_GET dto.order_id) (some [("by", Value.str "id")]) none none
      r resp (hr _ rfl) hst hj hsucc
    simp only [create_payment, h1]
  · intro resp hst hj hsucc horder
    have h1 := make_request_eq_ok svc http HTTPMethod.GET
      (RetailCRMEndpoint.ORDER_GET dto.order_id) (some [("by", Value.str "id")]) none none
      r resp (hr _ rfl) hst hj hsucc
    have hs2 : dictGetD resp "success" Value.null =
        dictGetD resp "success" (Value.bool false) :=
      dictGetD_of_truthy hsucc rfl Value.null
    simp only [create_payment, h1, hs2, hsucc, horder]
    rfl

/-- Witness for `c1_payment_read_before_write`: the backend reports success
with no order record, so the operation fails with the not-found message and
only the existence GET is ever issued. -/
theorem c1_payment_read_before_write_witness :
    create_payment ⟨"abc123", "http://crm"⟩
        (fun _ => ⟨200, "", Except.ok [("success", Value.bool true)]⟩)
        ⟨7, 10, PaymentTypeEnum.cash, PaymentStatusEnum.not_paid, none, none⟩ =
      (Except.error "Order with id 7 not found",
        [builtRequest ⟨"abc123", "http://crm"⟩ HTTPMethod.GET
          (RetailCRMEndpoint.ORDER_GET 7) (some [("by", Value.str "id")]) none none]) := by
  have h := c1_payment_read_before_write ⟨"abc123", "http://crm"⟩
    (fun _ => ⟨200, "", Except.ok [("success", Value.bool true)]⟩)
    ⟨7, 10, PaymentTypeEnum.cash, PaymentStatusEnum.not_paid, none, none⟩
    ⟨200, "", Except.ok [("success", Value.bool true)]⟩ (fun _ _ => rfl)
  have h3 := h.2.2.2.1 [("success", Value.bool true)] (by simp) rfl rfl rfl
  exact h3

/-- C1 counterexample to the claim as stated: when the existence read itself
fails at the transport level, the operation does fail and the payment POST is
never issued, but the error is the transport-shaped `CRM API error: HTTP
500: boom` — not a not-found-shaped error, contradicting the claim that all
such failures surface as a NotFound-class error. -/
theorem c1_counterexample :
    (create_payment ⟨"abc123", "http://crm"⟩ (fun _ => ⟨500, "boom", Except.error "x"⟩)
        ⟨7, 10, PaymentTypeEnum.cash, PaymentStatusEnum.not_paid, none, none⟩).1 =
      Except.error "CRM API error: HTTP 500: boom" ∧
    "CRM API error: HTTP 500: boom" ≠ "Order with id 7 not found" ∧
    ¬ strExt "Order with id " "CRM API error: HTTP 500: boom" ∧
    ((create_payment ⟨"abc123", "http://crm"⟩ (fun _ => ⟨500, "boom", Except.error "x"⟩)
        ⟨7, 10, PaymentTypeEnum.cash, PaymentStatusEnum.not_paid, none, none⟩).2.map
      (fun q => q.method) = [HTTPMethod.GET]) := by
  refine ⟨rfl, by decide, ?_, rfl⟩
  exact @not_strExt_of_head "Order with id " "CRM API error: HTTP 500: boom"
    (Char.ofNat 79) (Char.ofNat 67) (by decide) (by decide) (by decide)

/-- C4 amended: response normalization prefers the wrapped resource when it
is truthy (present and non-empty) and otherwise treats the whole payload as
the resource; but a normalized record lacking the `id` field makes DTO
construction raise a validation error — the caller never receives an absent
identity.  Only a present integer id (possibly `0`, which is merely logged
as a warning) is returned to the caller. -/
theorem c4_id_normalization (result : PyDict) (key : String) :
    ((dictGetD result key Value.null).truthy = true →
      normalizeWrapped result key = dictGetD result key Value.null) ∧
    ((dictGetD result key Value.null).truthy = false →
      normalizeWrapped result key = Value.dict result) ∧
    (∀ d : PyDict, dictLookup d "id" = none →
      CustomerResponseWithIdOnlySchema.fromValue (Value.dict d) =
        Except.error "validation error: id: field required") ∧
    (∀ d : PyDict, ∀ n : Int, dictLookup d "id" = some (Value.int n) →
      CustomerResponseWithIdOnlySchema.fromValue (Value.dict d) = Except.ok ⟨n⟩) ∧
    ((create_customer ⟨"abc123", "http://crm"⟩
        (fun _ => ⟨200, "", Except.ok [("success", Value.bool true),
          ("customer", Value.dict [("id", Value.int 0)])]⟩)
        ⟨"John", none, none, none, none⟩).1 = Except.ok ⟨0⟩) := by
  refine ⟨?_, ?_, ?_, ?_, rfl⟩
  · intro h
    simp only [normalizeWrapped]
    rw [if_pos h]
  · intro h
    simp only [normalizeWrapped]
    rw [if_neg (by rw [h]; exact Bool.false_ne_true)]
  · intro d h
    simp only [CustomerResponseWithIdOnlySchema.fromValue, h]
  · intro d n h
    simp only [CustomerResponseWithIdOnlySchema.fromValue, h, validateInt]
    rfl

/-- Witness for `c4_id_normalization`: a wrapped record without an `id`
field makes DTO construction fail. -/
theorem c4_id_normalization_witness :
    CustomerResponseWithIdOnlySchema.fromValue (Value.dict [("x", Value.int 1)]) =
      Except.error "validation error: id: field required" :=
  (c4_id_normalization [] "customer").2.2.1 [("x", Value.int 1)] rfl

/-- C4 counterexample to the claim as stated: the backend reports success
with an empty wrapped `customer` record, so normalization falls back to the
whole payload, the record has no `id`, and `create_customer` raises (returns
an error) instead of logging a warning and handing the caller an absent
identity. -/
theorem c4_counterexample :
    (create_customer ⟨"abc123", "http://crm"⟩
        (fun _ => ⟨200, "", Except.ok [("success", Value.bool true),
          ("customer", Value.dict [("x", Value.int 1)])]⟩)
        ⟨"John", none, none, none, none⟩).1 =
      Except.error "validation error: id: field required" :=
  rfl

/-- C7: customer phone normalization maps `None` to `None`, the empty list
to itself, a list of strings to itself, a list of structured entries with
`number` fields to the projected numbers, and drops structured entries with
no usable (truthy) `number`. -/
theorem c7_phone_normalization :
    parse_phones Value.null = Except.ok Value.null ∧
    parse_phones (Value.list []) = Except.ok (Value.list []) ∧
    parse_phones (Value.list [Value.str "1", Value.str "2"]) =
      Except.ok (Value.list [Value.str "1", Value.str "2"]) ∧
    parse_phones (Value.list [Value.dict [("number", Value.str "1")],
        Value.dict [("number", Value.str "2")]]) =
      Except.ok (Value.list [Value.str "1", Value.str "2"]) ∧
    parse_phones (Value.list [Value.dict [("number", Value.str "1")],
        Value.dict [], Value.dict [("x", Value.int 5)]]) =
      Except.ok (Value.list [Value.str "1"]) :=
  ⟨rfl, rfl, rfl, rfl, rfl⟩

/-- C8 amended: `create_order` performs no non-emptiness check on the item
list — for every well-typed order (the schema does enforce a customer
reference-by-id and an order number by construction), including one with an
empty item list, it forwards exactly one POST to the order-create
endpoint. -/
theorem c8_order_forwarding (svc : RetailCRMService)
    (http : HttpRequest → HttpResponse) (dto : OrderCreateSchema) :
    (create_order svc http dto).2 =
      [builtRequest svc HTTPMethod.POST RetailCRMEndpoint.ORDER_CREATE none
        (some [("order", Value.str (jsonDumps (Value.dict dto.model_dump)))]) none] ∧
    (builtRequest svc HTTPMethod.POST RetailCRMEndpoint.ORDER_CREATE none
      (some [("order", Value.str (jsonDumps (Value.dict dto.model_dump)))]) none).method =
        HTTPMethod.POST ∧
    (builtRequest svc HTTPMethod.POST RetailCRMEndpoint.ORDER_CREATE none
      (some [("order", Value.str (jsonDumps (Value.dict dto.model_dump)))]) none).endpoint =
        RetailCRMEndpoint.ORDER_CREATE :=
  ⟨rfl, rfl, rfl⟩

/-- C8 counterexample to the claim as stated: an order with an empty item
list is not rejected — `create_order` forwards it to the backend's
order-create endpoint (one POST to `/orders/create` is issued). -/
theorem c8_counterexample :
    ((create_order ⟨"abc123", "http://crm"⟩ (fun _ => ⟨500, "err", Except.error "x"⟩)
        ⟨⟨3⟩, [], "N-1", OrderTypeEnum.main, OrderMethodEnum.phone⟩).2.map
      (fun q => q.endpoint) = ["/orders/create"]) ∧
    ((create_order ⟨"abc123", "http://crm"⟩ (fun _ => ⟨500, "err", Except.error "x"⟩)
        ⟨⟨3⟩, [], "N-1", OrderTypeEnum.main, OrderMethodEnum.phone⟩).2.map
      (fun q => q.method) = ["POST"]) :=
  ⟨rfl, rfl⟩

/-- C9 amended: `_prepare_request_params` preserves the value of every
caller-supplied key other than `apiKey`, binds `apiKey` to the service's
configured key (overwriting any caller-supplied `apiKey`), and changes the
key set only by (at most) adding `apiKey`; the caller's mapping itself is
copied, never mutated, which this pure model renders by construction. -/
theorem c9_prepare_params (svc : RetailCRMService) (caller : PyDict) :
    (∀ k, k ≠ "apiKey" →
      dictLookup (prepare_request_params svc (some caller)) k = dictLookup caller k) ∧
    dictLookup (prepare_request_params svc (some caller)) "apiKey" =
      some (Value.str svc.api_key) ∧
    (∀ key ∈ dictKeys (prepare_request_params svc (some caller)),
      key ∈ dictKeys caller ∨ key = "apiKey") ∧
    (∀ key ∈ dictKeys caller,
      key ∈ dictKeys (prepare_request_params svc (some caller))) := by
  have he : prepare_request_params svc (some caller) =
      dictSet caller "apiKey" (Value.str svc.api_key) := by
    cases caller with
    | nil => rfl
    | cons kv rest => rfl
  refine ⟨?_, ?_, ?_, ?_⟩
  · intro k hk
    rw [he]
    exact dictLookup_dictSet_ne caller "apiKey" k _ hk
  · rw [he]
    exact dictLookup_dictSet_self caller "apiKey" _
  · intro key hkey
    rw [he] at hkey
    exact mem_dictKeys_dictSet hkey
  · intro key hkey
    rw [he]
    exact dictKeys_subset_dictSet "apiKey" _ hkey

/-- Witness for `c9_prepare_params`: a caller-supplied parameter is
preserved and the API key is added. -/
theorem c9_prepare_params_witness :
    dictLookup (prepare_request_params ⟨"abc123", "http://crm"⟩
      (some [("a", Value.int 1)])) "a" = some (Value.int 1) ∧
    dictLookup (prepare_request_params ⟨"abc123", "http://crm"⟩
      (some [("a", Value.int 1)])) "apiKey" = some (Value.str "abc123") :=
  ⟨(c9_prepare_params ⟨"abc123", "http://crm"⟩ [("a", Value.int 1)]).1 "a" (by decide),
   (c9_prepare_params ⟨"abc123", "http://crm"⟩ [("a", Value.int 1)]).2.1⟩

/-- C9 counterexample to the claim as stated: a caller-supplied `apiKey`
entry does not keep its original value — it is overwritten with the
service's key, so not every caller-supplied key still maps to its original
value. -/
theorem c9_counterexample :
    prepare_request_params ⟨"abc123", "http://crm"⟩
        (some [("apiKey", Value.str "caller-key")]) =
      [("apiKey", Value.str "abc123")] ∧
    dictLookup (prepare_request_params ⟨"abc123", "http://crm"⟩
        (some [("apiKey", Value.str "caller-key")])) "apiKey" ≠
      some (Value.str "caller-key") := by
  refine ⟨rfl, ?_⟩
  intro h
  have h2 := Option.some.inj h
  have h3 : ("abc123" : String) = "caller-key" := by
    injection h2
  exact absurd h3 (by decide)

/-- C3 amended: flattening a list-valued filter entry does recurse once per
element with the `[]` suffix, but both elements of
`{phones: [{number: "1"}, {number: "2"}]}` flatten to the same full key
`filter[phones][][number]`, and the dictionary assignment overwrites — the
output has exactly that one key, holding only the last element's value
`"2"`. -/
theorem c3_flatten_list_last_wins :
    convert_filter_data_to_retail_crm_style
        [("phones", Value.list [Value.dict [("number", Value.str "1")],
          Value.dict [("number", Value.str "2")]])] =
      [("filter[phones][][number]", Value.str "2")] ∧
    (∀ params : PyDict, ∀ pfx : String, ∀ item : Value, ∀ rest : List Value,
      flattenItems params pfx (item :: rest) =
        flattenItems (flatten params (pfx ++ "[]") item) pfx rest) :=
  ⟨rfl, fun _ _ _ _ => rfl⟩

/-- The `pfx` is a string prefix of `s`, decided on the character lists. -/
def strStartsWith (pfx s : String) : Bool :=
  List.isPrefixOf pfx.data s.data

/-- C3 counterexample to the claim as stated: the flattening of
`{phones: [{number: "1"}, {number: "2"}]}` yields exactly one key prefixed
`filter[phones]` (not at least two), and the value `"1"` does not occur in
the output at all. -/
theorem c3_counterexample :
    ((convert_filter_data_to_retail_crm_style
        [("phones", Value.list [Value.dict [("number", Value.str "1")],
          Value.dict [("number", Value.str "2")]])]).filter
      (fun kv => strStartsWith "filter[phones]" kv.1)).length = 1 ∧
    (∀ kv ∈ convert_filter_data_to_retail_crm_style
        [("phones", Value.list [Value.dict [("number", Value.str "1")],
          Value.dict [("number", Value.str "2")]])],
      kv.2 ≠ Value.str "1") := by
  refine ⟨rfl, ?_⟩
  intro kv hkv
  have he : convert_filter_data_to_retail_crm_style
      [("phones", Value.list [Value.dict [("number", Value.str "1")],
        Value.dict [("number", Value.str "2")]])] =
      [("filter[phones][][number]", Value.str "2")] := rfl
  rw [he] at hkv
  rw [List.mem_singleton] at hkv
  subst hkv
  intro hc
  have : ("2" : String) = "1" := by injection hc
  exact absurd this (by decide)

/-- Witness for `c2_filter_flattening`: the example input has distinct,
bracket-free keys; extracting the top-level `limit` fact at it. -/
theorem c2_filter_flattening_witness :
    dictLookup (convert_filter_data_to_retail_crm_style
        [("name", Value.str "John"), ("limit", Value.int 10), ("page", Value.int 2)])
      "limit" = some (Value.int 10) := by
  have h := c2_filter_flattening
    [("name", Value.str "John"), ("limit", Value.int 10), ("page", Value.int 2)]
    (by decide) (by decide)
  exact h.1 (Value.int 10) (fun hc => Value.noConfusion hc)
    (List.mem_cons_of_mem _ (List.mem_cons_self _ _))
